import Mathlib

/-!
Verification development for the ComfyUI/RunPod job driver
(`src/comfyui_test/comfyui.py`).

The Python program works on JSON-like values (nested dicts/lists of
strings, ints, booleans and `None`).  We embed those values as the
mutually inductive type `PyVal` below; dictionaries are association
lists with string keys that preserve insertion order, mirroring CPython
dict semantics (the program only ever uses string keys).  Updating an
existing key keeps its position; a new key is appended at the end, as in
Python.
-/

namespace ComfyTool

mutual

inductive PyVal : Type where
  | vstr : String → PyVal
  | vint : Int → PyVal
  | vbool : Bool → PyVal
  | vnone : PyVal
  | vlist : PyList → PyVal
  | vdict : PyDict → PyVal

inductive PyList : Type where
  | nil : PyList
  | cons : PyVal → PyList → PyList

inductive PyDict : Type where
  | dnil : PyDict
  | dcons : String → PyVal → PyDict → PyDict

end

deriving instance DecidableEq for PyVal

/-- Python dict lookup `d.get(key)` — first binding of `key`, `None` (here
`Option.none`) when absent. -/
def PyDict.get : PyDict → String → Option PyVal
  | .dnil, _ => none
  | .dcons k v rest, key => if k = key then some v else rest.get key

/-- Python dict assignment `d[key] = value` — overwrite in place (keeping the
key's position) or append a fresh binding at the end. -/
def PyDict.set : PyDict → String → PyVal → PyDict
  | .dnil, key, val => .dcons key val .dnil
  | .dcons k v rest, key, val =>
      if k = key then .dcons k val rest else .dcons k v (rest.set key val)

/-- Python `key in d`. -/
def PyDict.hasKey : PyDict → String → Bool
  | .dnil, _ => false
  | .dcons k _ rest, key => if k = key then true else rest.hasKey key

/-- Python `not d` (dict truthiness). -/
def PyDict.isEmpty : PyDict → Bool
  | .dnil => true
  | .dcons _ _ _ => false

/-- The bindings of a dict, in insertion order. -/
def PyDict.toList : PyDict → List (String × PyVal)
  | .dnil => []
  | .dcons k v rest => (k, v) :: rest.toList

/-- The elements of a Python list. -/
def PyList.toList : PyList → List PyVal
  | .nil => []
  | .cons v rest => v :: rest.toList

/-! ## Payload access

`comfyui.py` reaches the graph as `payload.get("input", {}).get("workflow")`
(lines 144, 211, 255).  In every call site `payload` and `payload["input"]`
are dicts (Python would raise `AttributeError` on a truthy non-dict
`input`; that crash path is collapsed to `none` here). -/

/-- The graph access `payload.get("input", {}).get("workflow")`. -/
def workflowOf (payload : PyVal) : Option PyVal :=
  match payload with
  | .vdict d =>
      match d.get "input" with
      | some (.vdict ind) => ind.get "workflow"
      | _ => none
  | _ => none

/-- Writing the (possibly rebuilt) workflow back where the Python code
mutates the aliased `workflow` dict in place. -/
def setWorkflow (payload : PyVal) (w : PyVal) : PyVal :=
  match payload with
  | .vdict d =>
      match d.get "input" with
      | some (.vdict ind) => .vdict (d.set "input" (.vdict (ind.set "workflow" w)))
      | _ => payload
  | _ => payload

/-! ## The Issue record

`parse_validation_issues` (lines 126-134) emits dicts with exactly these
five fields; `node_id`, `class_type` and `input_name` are always strings
there (the parser drops non-string input names, the regex yields string
ids, and `class_type` defaults to `"Unknown"`), `choices` is a filtered
list of strings and `received_value` an arbitrary parsed literal.  This
is the spec's Issue data model (§3). -/

structure Issue : Type where
  node_id : String
  class_type : String
  input_name : String
  received_value : PyVal
  choices : List String
deriving DecidableEq

/-! ## Python repr

Messages are built with f-strings using `{...!r}` (lines 183, 188-189).
We reproduce CPython `repr` for the value shapes that can appear:
strings use single quotes unless the string contains a single quote and
no double quote; the chosen quote and backslashes are escaped, and
newline/tab/carriage-return map to their escape sequences (repr of other
non-printable characters is not modelled — none is producible by the
parser from the validator text grammar actually exercised here). -/

def sqChar : Char := Char.ofNat 39

def dqChar : Char := Char.ofNat 34

def escapeRepr (q : Char) : List Char → List Char
  | [] => []
  | c :: rest =>
      if c = '\\' then '\\' :: '\\' :: escapeRepr q rest
      else if c = q then '\\' :: c :: escapeRepr q rest
      else if c = '\n' then '\\' :: 'n' :: escapeRepr q rest
      else if c = '\t' then '\\' :: 't' :: escapeRepr q rest
      else if c = '\r' then '\\' :: 'r' :: escapeRepr q rest
      else c :: escapeRepr q rest

def listHasChar (c : Char) : List Char → Bool
  | [] => false
  | x :: rest => if x = c then true else listHasChar c rest

/-- CPython `repr` of a `str`. -/
def pyReprString (s : String) : String :=
  if listHasChar sqChar s.data && !listHasChar dqChar s.data then
    String.mk (dqChar :: escapeRepr dqChar s.data ++ [dqChar])
  else
    String.mk (sqChar :: escapeRepr sqChar s.data ++ [sqChar])

mutual

/-- CPython `repr` of a value. -/
def pyRepr : PyVal → String
  | .vstr s => pyReprString s
  | .vint n => toString n
  | .vbool b => if b then "True" else "False"
  | .vnone => "None"
  | .vlist l => "[" ++ pyReprList l ++ "]"
  | .vdict d => "\x7b" ++ pyReprDict d ++ "\x7d"

def pyReprList : PyList → String
  | .nil => ""
  | .cons v .nil => pyRepr v
  | .cons v (.cons w rest) => pyRepr v ++ ", " ++ pyReprList (.cons w rest)

def pyReprDict : PyDict → String
  | .dnil => ""
  | .dcons k v .dnil => pyReprString k ++ ": " ++ pyRepr v
  | .dcons k v (.dcons k' v' rest) =>
      pyReprString k ++ ": " ++ pyRepr v ++ ", " ++ pyReprDict (.dcons k' v' rest)

end

/-! ## Fallback Patcher (`apply_validation_fallbacks`, lines 139-192) -/

/-- The fixed lookup table `model_dir_by_class` (lines 151-157) applied via
`.get(str(class_type), "models/<unknown>")` (line 186). -/
def model_dir_by_class (c : String) : String :=
  if c = "UNETLoader" then "models/unet"
  else if c = "CLIPLoader" then "models/clip"
  else if c = "VAELoader" then "models/vae"
  else if c = "CheckpointLoaderSimple" then "models/checkpoints"
  else if c = "DualCLIPLoader" then "models/clip"
  else "models/<unknown>"

/-- Python `old_value == new_value` where `new_value` is a `str`: in CPython
a `str` compares equal only to an equal `str`. -/
def pyEqStr (v : PyVal) (s : String) : Bool :=
  match v with
  | .vstr t => t = s
  | _ => false

/-- The f-string of line 183. -/
def patchMessage (node_id class_type input_name : String) (oldv : PyVal)
    (newv : String) : String :=
  "Node " ++ node_id ++ " (" ++ class_type ++ ") " ++ input_name ++ ": "
    ++ pyRepr oldv ++ " -> " ++ pyReprString newv

/-- The f-string of lines 188-189. -/
def missingMessage (node_id class_type input_name : String)
    (received : PyVal) (dir : String) : String :=
  "Node " ++ node_id ++ " (" ++ class_type ++ ") " ++ input_name
    ++ ": required=" ++ pyRepr received
    ++ ", available=[] (put model under " ++ dir ++ ")"

/-- One iteration of the `for issue in issues` loop (lines 159-190),
returning the updated workflow and the patched/missing messages this
issue contributed.  The `isinstance` guards on `node_id`/`input_name`
(line 166) are vacuous for `Issue` records, whose fields are strings by
construction. -/
def applyIssue (workflow : PyDict) (i : Issue) :
    PyDict × List String × List String :=
  match workflow.get i.node_id with
  | some (.vdict node) =>
      match node.get "inputs" with
      | some (.vdict inputs) =>
          match i.choices with
          | [] =>
              (workflow, [],
                [missingMessage i.node_id i.class_type i.input_name
                  i.received_value (model_dir_by_class i.class_type)])
          | c0 :: _ =>
              let oldv := (inputs.get i.input_name).getD .vnone
              if pyEqStr oldv c0 then (workflow, [], [])
              else
                (workflow.set i.node_id
                    (.vdict (node.set "inputs"
                      (.vdict (inputs.set i.input_name (.vstr c0))))),
                  [patchMessage i.node_id i.class_type i.input_name oldv c0],
                  [])
      | _ => (workflow, [], [])
  | _ => (workflow, [], [])

/-- The whole loop, threading the mutated workflow and accumulating the
two message lists in order. -/
def applyIssues (workflow : PyDict) : List Issue → PyDict × List String × List String
  | [] => (workflow, [], [])
  | i :: rest =>
      let r1 := applyIssue workflow i
      let r2 := applyIssues r1.1 rest
      (r2.1, r1.2.1 ++ r2.2.1, r1.2.2 ++ r2.2.2)

/-- The function `apply_validation_fallbacks` (lines 139-192).  The Python function
mutates `payload` in place and returns `(patched, missing)`; here the
mutated payload is returned as the first component. -/
def apply_validation_fallbacks (payload : PyVal) (issues : List Issue) :
    PyVal × List String × List String :=
  match workflowOf payload with
  | some (.vdict w) =>
      let r := applyIssues w issues
      (setWorkflow payload (.vdict r.1), r.2.1, r.2.2)
  | _ => (payload, [], [])

/-- The value currently stored at `workflow[nid]["inputs"][nm]`. -/
def inputValueAt (payload : PyVal) (nid nm : String) : Option PyVal :=
  match workflowOf payload with
  | some (.vdict w) =>
      match w.get nid with
      | some (.vdict node) =>
          match node.get "inputs" with
          | some (.vdict inputs) => inputs.get nm
          | _ => none
      | _ => none
  | _ => none

/-! ## Validation Issue Parser (`parse_validation_issues`, lines 76-136)

String scanning is done on `List Char`.  Whitespace (`\s`, `str.strip`,
`str.splitlines`) is modelled over its ASCII members (space, tab,
newline, carriage return, vertical tab, form feed); CPython additionally
accepts rarer Unicode whitespace and line boundaries, which the
validator's error channel never emits. -/

def pyIsSpace (c : Char) : Bool :=
  c = ' ' || c = '\t' || c = '\n' || c = '\r' || c = Char.ofNat 11 || c = Char.ofNat 12

def dropLeadingSpace : List Char → List Char
  | [] => []
  | c :: rest => if pyIsSpace c then dropLeadingSpace rest else c :: rest

/-- Python `str.strip()`. -/
def stripBoth (l : List Char) : List Char :=
  ((dropLeadingSpace (dropLeadingSpace l).reverse)).reverse

/-- Python `needle in haystack` on strings. -/
def containsSub (haystack needle : List Char) : Bool :=
  if needle.isPrefixOf haystack then true
  else
    match haystack with
    | [] => false
    | _ :: t => containsSub t needle

/-- Python `str.splitlines()` restricted to the `\n`, `\r\n` and `\r`
line boundaries.  First argument: the current line, reversed. -/
def splitlinesAux : List Char → List Char → List (List Char)
  | cur, [] => if cur.isEmpty then [] else [cur.reverse]
  | cur, '\r' :: '\n' :: rest => cur.reverse :: splitlinesAux [] rest
  | cur, c :: rest =>
      if c = '\n' || c = '\r' then cur.reverse :: splitlinesAux [] rest
      else splitlinesAux (c :: cur) rest

/-- Strip a literal from the front, or fail. -/
def stripLit : List Char → List Char → Option (List Char)
  | [], l => some l
  | _ :: _, [] => none
  | p :: ps, c :: cs => if c = p then stripLit ps cs else none

/-- The maximal run matching `[^ ]+` (any character except a space). -/
def takeNonSpace : List Char → List Char × List Char
  | [] => ([], [])
  | c :: rest =>
      if c = ' ' then ([], c :: rest)
      else
        let r := takeNonSpace rest
        (c :: r.1, r.2)

/-- The `re.match` of `^\s*• Node ([^ ]+) <tag>(.+)$` against one line, for
`tag` either `" (errors): "` or `" (class_type): "` (lines 86-87).
Because `[^ ]+` cannot cross a space and is followed by a literal space
in the pattern, the first group is exactly the maximal non-space run. -/
def matchBulletLine (tag : List Char) (line : List Char) :
    Option (String × List Char) :=
  match stripLit "• Node ".data (dropLeadingSpace line) with
  | none => none
  | some rest =>
      let r := takeNonSpace rest
      if r.1.isEmpty then none
      else
        match stripLit tag r.2 with
        | none => none
        | some rem => if rem.isEmpty then none else some (String.mk r.1, rem)

/-! ### `ast.literal_eval`

A fuel-indexed recursive-descent parser for the Python literal subset the
validator emits: single/double-quoted strings (with `\\`, quote, `\n`,
`\t`, `\r` escapes), decimal integers, `None`/`True`/`False`, lists and
string-keyed dicts, with arbitrary interspersed whitespace and trailing
commas.  Anything else (floats, tuples, sets, non-string dict keys, …)
fails, which makes the enclosing scanner skip the line exactly like the
`except Exception: continue` of lines 96-97.  Fuel `4*n+8` strictly
dominates the recursion depth for an `n`-character input, so the fuel
never runs out on a parse that would succeed. -/

def parseStrBody : Nat → Char → List Char → List Char → Option (String × List Char)
  | 0, _, _, _ => none
  | fuel + 1, q, l, acc =>
      match l with
      | [] => none
      | c :: rest =>
          if c = q then some (String.mk acc.reverse, rest)
          else if c = '\\' then
            match rest with
            | [] => none
            | e :: rest' =>
                let dec :=
                  if e = 'n' then '\n'
                  else if e = 't' then '\t'
                  else if e = 'r' then '\r'
                  else e
                parseStrBody fuel q rest' (dec :: acc)
          else parseStrBody fuel q rest (c :: acc)

def digitsVal (acc : Nat) : List Char → Nat × List Char
  | [] => (acc, [])
  | c :: rest =>
      if c.isDigit then digitsVal (acc * 10 + (c.toNat - 48)) rest
      else (acc, c :: rest)

def parseIntLit : List Char → Option (Int × List Char)
  | [] => none
  | c :: rest =>
      if c = '-' then
        match rest with
        | d :: _ =>
            if d.isDigit then
              let r := digitsVal 0 rest
              some (-(r.1 : Int), r.2)
            else none
        | [] => none
      else if c.isDigit then
        let r := digitsVal 0 (c :: rest)
        some ((r.1 : Int), r.2)
      else none

/-- Build a dict from parsed pairs with CPython dict-literal semantics
(insertion order, duplicate keys overwrite in place). -/
def dictOfPairsAux (acc : PyDict) : List (String × PyVal) → PyDict
  | [] => acc
  | (k, v) :: rest => dictOfPairsAux (acc.set k v) rest

def dictOfPairs (pairs : List (String × PyVal)) : PyDict :=
  dictOfPairsAux .dnil pairs

mutual

def parseVal : Nat → List Char → Option (PyVal × List Char)
  | 0, _ => none
  | fuel + 1, l =>
      match dropLeadingSpace l with
      | [] => none
      | c :: rest =>
          if c = sqChar || c = dqChar then
            match parseStrBody fuel c rest [] with
            | some (s, rem) => some (.vstr s, rem)
            | none => none
          else if c = '[' then
            match parseListItems fuel rest with
            | some (items, rem) => some (.vlist items, rem)
            | none => none
          else if c = Char.ofNat 123 then
            match parseDictItems fuel rest with
            | some (pairs, rem) => some (.vdict (dictOfPairs pairs), rem)
            | none => none
          else if c = 'N' then
            match stripLit "one".data rest with
            | some rem => some (.vnone, rem)
            | none => none
          else if c = 'T' then
            match stripLit "rue".data rest with
            | some rem => some (.vbool true, rem)
            | none => none
          else if c = 'F' then
            match stripLit "alse".data rest with
            | some rem => some (.vbool false, rem)
            | none => none
          else
            match parseIntLit (c :: rest) with
            | some (n, rem) => some (.vint n, rem)
            | none => none

def parseListItems : Nat → List Char → Option (PyList × List Char)
  | 0, _ => none
  | fuel + 1, l =>
      match dropLeadingSpace l with
      | [] => none
      | c :: rest =>
          if c = ']' then some (.nil, rest)
          else
            match parseVal fuel (c :: rest) with
            | none => none
            | some (v, rem) =>
                match dropLeadingSpace rem with
                | ',' :: rem' =>
                    match parseListItems fuel rem' with
                    | some (tail, r) => some (.cons v tail, r)
                    | none => none
                | ']' :: rem' => some (.cons v .nil, rem')
                | _ => none

def parseDictItems : Nat → List Char → Option (List (String × PyVal) × List Char)
  | 0, _ => none
  | fuel + 1, l =>
      match dropLeadingSpace l with
      | [] => none
      | c :: rest =>
          if c = Char.ofNat 125 then some ([], rest)
          else if c = sqChar || c = dqChar then
            match parseStrBody fuel c rest [] with
            | none => none
            | some (key, rem) =>
                match dropLeadingSpace rem with
                | ':' :: rem' =>
                    match parseVal fuel rem' with
                    | none => none
                    | some (v, rem'') =>
                        match dropLeadingSpace rem'' with
                        | ',' :: rem''' =>
                            match parseDictItems fuel rem''' with
                            | some (tail, r) => some ((key, v) :: tail, r)
                            | none => none
                        | d :: r =>
                            if d = Char.ofNat 125 then some ([(key, v)], r)
                            else none
                        | _ => none
                | _ => none
          else none

end

/-- Python `ast.literal_eval`: the whole (stripped) string must be one literal. -/
def parsePyLiteral (l : List Char) : Option PyVal :=
  match parseVal (4 * l.length + 8) l with
  | some (v, rest) => if (dropLeadingSpace rest).isEmpty then some v else none
  | none => none

/-! ### The line scan and issue construction (lines 83-136) -/

/-- Order-preserving association update: Python `d[k] = v` for the
auxiliary `node_errors`/`node_class` dicts. -/
def assocSet {α : Type} : List (String × α) → String → α → List (String × α)
  | [], k, v => [(k, v)]
  | (k', v') :: rest, k, v =>
      if k' = k then (k', v) :: rest else (k', v') :: assocSet rest k v

def assocGet {α : Type} : List (String × α) → String → Option α
  | [], _ => none
  | (k', v') :: rest, k => if k' = k then some v' else assocGet rest k

/-- The comprehension `[e for e in parsed if isinstance(e, dict)]` (line 99). -/
def dictsOf : PyList → List PyDict
  | .nil => []
  | .cons (.vdict d) rest => d :: dictsOf rest
  | .cons _ rest => dictsOf rest

/-- The comprehension `[x for x in input_config[0] if isinstance(x, str)]` (line 124). -/
def stringsOf : PyList → List String
  | .nil => []
  | .cons (.vstr s) rest => s :: stringsOf rest
  | .cons _ rest => stringsOf rest

/-- The `for line in error_text.splitlines()` loop (lines 89-104): an
`(errors)` line overwrites `node_errors[node_id]` when its tail parses as
a literal list (otherwise the line is skipped), and is never also tried
against the class pattern (`continue`, line 100); a `(class_type)` line
overwrites `node_class[node_id]` with the stripped tail. -/
def scanLines :
    List (List Char) → List (String × List PyDict) → List (String × String) →
      List (String × List PyDict) × List (String × String)
  | [], ne, nc => (ne, nc)
  | line :: rest, ne, nc =>
      match matchBulletLine " (errors): ".data line with
      | some (nid, rem) =>
          match parsePyLiteral (stripBoth rem) with
          | some (.vlist items) => scanLines rest (assocSet ne nid (dictsOf items)) nc
          | _ => scanLines rest ne nc
      | none =>
          match matchBulletLine " (class_type): ".data line with
          | some (nid, rem) =>
              scanLines rest ne (assocSet nc nid (String.mk (stripBoth rem)))
          | none => scanLines rest ne nc

/-- The inner `for err in errors` loop (lines 108-134): drop entries
without a dict `extra_info` or a string `input_name`; take choices from
`extra_info["input_config"][0]` when that is a list inside a non-empty
list; `received_value` defaults to `None`. -/
def issuesOfNode (nid cls : String) : List PyDict → List Issue
  | [] => []
  | err :: rest =>
      match err.get "extra_info" with
      | some (.vdict extra) =>
          match extra.get "input_name" with
          | some (.vstr input_name) =>
              let choices :=
                match extra.get "input_config" with
                | some (.vlist (.cons (.vlist cs) _)) => stringsOf cs
                | _ => []
              ⟨nid, cls, input_name, (extra.get "received_value").getD .vnone,
                choices⟩ :: issuesOfNode nid cls rest
          | _ => issuesOfNode nid cls rest
      | _ => issuesOfNode nid cls rest

/-- The outer `for node_id, errors in node_errors.items()` loop
(lines 107-134); `class_type` is `node_class.get(node_id, "Unknown")`. -/
def buildIssues : List (String × List PyDict) → List (String × String) → List Issue
  | [], _ => []
  | (nid, errs) :: rest, nc =>
      issuesOfNode nid ((assocGet nc nid).getD "Unknown") errs ++ buildIssues rest nc

def validationMarker : List Char := "Workflow validation failed".data

/-- The parser `parse_validation_issues` (lines 76-136).  The argument is a `PyVal`
because the caller passes `result.get("error", "")`, and the function
guards with `isinstance(error_text, str)` (line 80). -/
def parse_validation_issues (error_text : PyVal) : List Issue :=
  match error_text with
  | .vstr s =>
      if containsSub s.data validationMarker then
        let r := scanLines (splitlinesAux [] s.data) [] []
        buildIssues r.1 r.2
      else []
  | _ => []

/-! ## Workflow Sanitizer (`sanitize_workflow`, lines 250-284)

The Python function raises `ValueError` for the frontend shape and the
empty graph; those paths are an `Except.error` here, carrying the
message. -/

/-- The test `isinstance(value, dict) and "class_type" in value` (line 272). -/
def isNodeRecord (v : PyVal) : Bool :=
  match v with
  | .vdict d => d.hasKey "class_type"
  | _ => false

/-- The test `key.startswith("#") or key in {"config", "definitions"}` (line 274). -/
def removableKey (k : String) : Bool :=
  (match k.data with
   | c :: _ => c = '#'
   | [] => false) || k = "config" || k = "definitions"

/-- The `for key in list(workflow.keys())` sweep (lines 270-276): keep
node records, pop removable non-node keys (recording them in order),
keep everything else. -/
def sweep : PyDict → PyDict × List String
  | .dnil => (.dnil, [])
  | .dcons k v rest =>
      if isNodeRecord v then
        let r := sweep rest
        (.dcons k v r.1, r.2)
      else if removableKey k then
        let r := sweep rest
        (r.1, k :: r.2)
      else
        let r := sweep rest
        (.dcons k v r.1, r.2)

/-- The sanitizer `sanitize_workflow` (lines 250-284), returning the removed keys and
the payload with its workflow swept. -/
def sanitize_workflow (payload : PyVal) : Except String (List String × PyVal) :=
  match workflowOf payload with
  | some (.vdict w) =>
      match w.get "nodes", w.get "links" with
      | some (.vlist _), some (.vlist _) =>
          .error ("Detected frontend workflow JSON (contains nodes/links). "
            ++ "This worker expects API prompt JSON. "
            ++ "Please export `workflow_api.json` (or Save as API format) "
            ++ "from ComfyUI and use that file.")
      | _, _ =>
          let r := sweep w
          if r.1.isEmpty then
            .error ("Workflow has no executable nodes after sanitization. "
              ++ "Please provide an API prompt JSON export from ComfyUI.")
          else .ok (r.2, setWorkflow payload (.vdict r.1))
  | _ => .ok ([], payload)

/-! ## Job Runner (`RunPodComfyClient.poll_until_done`, lines 384-399)
and the recovery orchestration in `main` (lines 441-475) -/

/-- ASCII upper-casing, as `str.upper()` acts on the status strings the
service emits. -/
def upperStr (s : String) : String := String.mk (s.data.map Char.toUpper)

/-- The status read `(res.get("status") or "").upper()` (lines 390, 444, 456, 474).  A
missing, `None` or empty status yields `""`; statuses are strings on the
wire (a truthy non-string would make CPython raise, which no claim
exercises). -/
def statusOf (res : PyVal) : String :=
  match res with
  | .vdict d =>
      match d.get "status" with
      | some (.vstr s) => upperStr s
      | _ => ""
  | _ => ""

/-- The error read `result.get("error", "")` (line 446). -/
def errorTextOf (res : PyVal) : PyVal :=
  match res with
  | .vdict d => (d.get "error").getD (.vstr "")
  | _ => .vstr ""

/-- The membership test `st in {"COMPLETED", "FAILED", "CANCELLED", "TIMED_OUT"}` (line 392). -/
def isTerminalStatus (st : String) : Bool :=
  st = "COMPLETED" || st = "FAILED" || st = "CANCELLED" || st = "TIMED_OUT"

/-- The backoff schedule of `poll_until_done`: `sleep_s = 2.0` (line 386)
and `sleep_s = min(sleep_s * 1.2, 10.0)` after each sleep (line 399).
The float arithmetic is embedded in exact rationals; every comparison
involved is far from the cap boundary, so IEEE-754 rounding cannot
change any `min`. -/
def backoff : Nat → ℚ
  | 0 => 2
  | n + 1 => min (backoff n * (6 / 5)) 10

/-- Outcome of the polling loop. -/
inductive PollOutcome : Type where
  | done : PyVal → PollOutcome
  | timeout : String → PollOutcome
  | running : PollOutcome
deriving DecidableEq

/-- The `while True` loop of `poll_until_done` (lines 388-399), driven by
two oracles: `res i` is the JSON returned by the `i`-th `self.status`
call and `overDeadline i` is the `time.time() - start > max_wait_s` test
of that iteration.  `fuel` bounds how many iterations we unfold
(`.running` means the loop is still going); `sleep_s` is threaded
exactly as in the source even though it does not influence the
control-flow outcome given the oracles. -/
def pollLoop (res : Nat → PyVal) (overDeadline : Nat → Bool) :
    Nat → Nat → ℚ → PollOutcome
  | 0, _, _ => .running
  | fuel + 1, i, sleep_s =>
      let st := statusOf (res i)
      if isTerminalStatus st then .done (res i)
      else if overDeadline i then .timeout st
      else pollLoop res overDeadline fuel (i + 1) (min (sleep_s * (6 / 5)) 10)

/-- The loop `poll_until_done` entered at its first iteration. -/
def poll_until_done (res : Nat → PyVal) (overDeadline : Nat → Bool)
    (fuel : Nat) : PollOutcome :=
  pollLoop res overDeadline fuel 0 2

/-- What `main` observably does between obtaining the first terminal
result and the end of the process (lines 441-475). -/
structure RecoveryTrace : Type where
  /-- Contents written to `<outdir>/result.json`, if the write is reached. -/
  persisted : Option PyVal
  /-- The job results obtained, in order. -/
  results : List PyVal
  /-- How many times `run_job` was invoked. -/
  submissions : Nat
  /-- The payload passed to the retry, when one happened. -/
  retryArg : Option PyVal
deriving DecidableEq

/-- The recovery orchestration of `main` (lines 441-475): after a first
`run_job` returned `r1`, retry exactly once when the status is not
`COMPLETED`, the parsed issue list is non-empty and at least one patch
was applied.  `run2` abstracts the second `run_job` call (same client,
mode and budgets): `some r2` is a normal return, `none` an exception
(e.g. the poll `TimeoutError` of line 396 or an HTTP error), which
propagates out of `main` before the `result.json` write of line 472. -/
def mainRecovery (payload r1 : PyVal) (run2 : PyVal → Option PyVal) :
    RecoveryTrace :=
  if statusOf r1 = "COMPLETED" then ⟨some r1, [r1], 1, none⟩
  else
    let issues := parse_validation_issues (errorTextOf r1)
    if issues.isEmpty then ⟨some r1, [r1], 1, none⟩
    else
      let r := apply_validation_fallbacks payload issues
      if r.2.1.isEmpty then ⟨some r1, [r1], 1, none⟩
      else
        match run2 r.1 with
        | none => ⟨none, [r1], 2, some r.1⟩
        | some r2 => ⟨some r2, [r1, r2], 2, some r.1⟩

/-- The condition under which lines 169-175 `continue` past an issue:
the referenced node is absent or not a dict, or its `inputs` is absent
or not a dict.  (Note the `input_name` itself is *not* required to be a
key of `inputs`.) -/
def skipIssue (w : PyDict) (i : Issue) : Bool :=
  match w.get i.node_id with
  | some (.vdict node) =>
      match node.get "inputs" with
      | some (.vdict _) => false
      | _ => true
  | _ => true

/-! ## Concrete fixtures (spec §8, end-to-end scenarios B/C) -/

/-- The error text of end-to-end scenario B. -/
def errTextB : String :=
  "Workflow validation failed:\n  • Node 12 (errors): [\x7b\x27extra_info\x27: \x7b\x27input_name\x27: \x27ckpt_name\x27, \x27received_value\x27: \x27foo.safetensors\x27, \x27input_config\x27: [[\x27bar.safetensors\x27,\x27baz.safetensors\x27]]\x7d\x7d]\n  • Node 12 (class_type): CheckpointLoaderSimple"

/-- The single issue scenario B's text describes. -/
def issueB : Issue :=
  ⟨"12", "CheckpointLoaderSimple", "ckpt_name", .vstr "foo.safetensors",
    ["bar.safetensors", "baz.safetensors"]⟩

/-- Scenario C's issue: same, with no `input_config` hence no choices. -/
def issueC : Issue :=
  ⟨"12", "CheckpointLoaderSimple", "ckpt_name", .vstr "foo.safetensors", []⟩

def inputsB : PyDict := .dcons "ckpt_name" (.vstr "foo.safetensors") .dnil

def nodeB : PyDict :=
  .dcons "class_type" (.vstr "CheckpointLoaderSimple")
    (.dcons "inputs" (.vdict inputsB) .dnil)

def workflowB : PyDict := .dcons "12" (.vdict nodeB) .dnil

def mkPayload (w : PyDict) : PyVal :=
  .vdict (.dcons "input" (.vdict (.dcons "workflow" (.vdict w) .dnil)) .dnil)

/-- A payload whose node 12 still selects the rejected checkpoint. -/
def payloadB : PyVal := mkPayload workflowB

/-- Same payload, but with `ckpt_name` already equal to the first choice. -/
def payloadBConv : PyVal :=
  mkPayload (.dcons "12"
    (.vdict (.dcons "class_type" (.vstr "CheckpointLoaderSimple")
      (.dcons "inputs"
        (.vdict (.dcons "ckpt_name" (.vstr "bar.safetensors") .dnil)) .dnil)))
    .dnil)

/-- A payload whose workflow is an empty mapping. -/
def payloadEmptyW : PyVal := mkPayload .dnil

/-- A payload with one node whose `inputs` mapping exists but is empty. -/
def payloadC5 : PyVal :=
  mkPayload (.dcons "1" (.vdict (.dcons "inputs" (.vdict .dnil) .dnil)) .dnil)

/-- An issue naming an input absent from `payloadC5`'s node 1. -/
def issueC5 : Issue := ⟨"1", "Unknown", "x", .vnone, ["a"]⟩

/-- An issue naming a node absent from `payloadB`. -/
def issueNoNode : Issue := ⟨"99", "Unknown", "x", .vnone, ["a"]⟩

/-- A payload whose workflow holds one non-node entry under an
unremovable key. -/
def payloadJunk : PyVal := mkPayload (.dcons "foo" (.vint 1) .dnil)

/-- A terminal result: `FAILED` with scenario B's validation error. -/
def resultFailB : PyVal :=
  .vdict (.dcons "status" (.vstr "FAILED")
    (.dcons "error" (.vstr errTextB) .dnil))

/-- A terminal `COMPLETED` result. -/
def resultDone : PyVal := .vdict (.dcons "status" (.vstr "COMPLETED") .dnil)

/-! # Theorems -/

/-! ## Association-list and payload plumbing lemmas -/

theorem PyDict.get_set_self (d : PyDict) (k : String) (v : PyVal) :
    (d.set k v).get k = some v :=
  match d with
  | .dnil => by simp [PyDict.set, PyDict.get]
  | .dcons k' v' rest => by
      by_cases h : k' = k
      · simp [PyDict.set, PyDict.get, h]
      · simp [PyDict.set, PyDict.get, h, PyDict.get_set_self rest k v]

theorem PyDict.set_get_eq (d : PyDict) (k : String) (v : PyVal)
    (h : d.get k = some v) : d.set k v = d :=
  match d with
  | .dnil => by simp [PyDict.get] at h
  | .dcons k' v' rest => by
      by_cases hk : k' = k
      · subst hk
        simp [PyDict.get] at h
        simp [PyDict.set, h]
      · simp [PyDict.get, hk] at h
        simp [PyDict.set, hk, PyDict.set_get_eq rest k v h]

theorem workflowOf_setWorkflow (payload w₀ : PyVal) (w : PyVal)
    (h : workflowOf payload = some w₀) :
    workflowOf (setWorkflow payload w) = some w := by
  unfold workflowOf at h
  unfold setWorkflow workflowOf
  match payload with
  | .vstr _ | .vint _ | .vbool _ | .vnone | .vlist _ => simp at h
  | .vdict d =>
      match hin : d.get "input" with
      | some (.vdict ind) =>
          simp [hin, PyDict.get_set_self]
      | none => simp [hin] at h
      | some (.vstr _) | some (.vint _) | some (.vbool _)
      | some .vnone | some (.vlist _) => simp [hin] at h

theorem setWorkflow_self (payload w : PyVal)
    (h : workflowOf payload = some w) : setWorkflow payload w = payload := by
  unfold workflowOf at h
  unfold setWorkflow
  match payload with
  | .vstr _ | .vint _ | .vbool _ | .vnone | .vlist _ => simp at h
  | .vdict d =>
      match hin : d.get "input" with
      | some (.vdict ind) =>
          simp [hin] at h
          simp [hin, PyDict.set_get_eq ind "workflow" w h,
                PyDict.set_get_eq d "input" (.vdict ind) hin]
      | none => simp [hin] at h
      | some (.vstr _) | some (.vint _) | some (.vbool _)
      | some .vnone | some (.vlist _) => simp [hin] at h

theorem apply_single (payload : PyVal) (w : PyDict)
    (hw : workflowOf payload = some (.vdict w)) (i : Issue) :
    apply_validation_fallbacks payload [i] =
      (setWorkflow payload (.vdict (applyIssue w i).1),
        (applyIssue w i).2.1, (applyIssue w i).2.2) := by
  unfold apply_validation_fallbacks applyIssues
  simp [hw, applyIssues]

/-! ## Fallback Patcher step lemmas -/

theorem applyIssue_patch (w node inputs : PyDict) (i : Issue) (c0 : String)
    (cs : List String) (hch : i.choices = c0 :: cs)
    (hn : w.get i.node_id = some (.vdict node))
    (hi : node.get "inputs" = some (.vdict inputs))
    (hne : pyEqStr ((inputs.get i.input_name).getD .vnone) c0 = false) :
    applyIssue w i =
      (w.set i.node_id (.vdict (node.set "inputs"
          (.vdict (inputs.set i.input_name (.vstr c0))))),
        [patchMessage i.node_id i.class_type i.input_name
          ((inputs.get i.input_name).getD .vnone) c0], []) := by
  unfold applyIssue
  simp [hn, hi, hch, hne]

theorem applyIssue_noop (w node inputs : PyDict) (i : Issue) (c0 : String)
    (cs : List String) (hch : i.choices = c0 :: cs)
    (hn : w.get i.node_id = some (.vdict node))
    (hi : node.get "inputs" = some (.vdict inputs))
    (heq : pyEqStr ((inputs.get i.input_name).getD .vnone) c0 = true) :
    applyIssue w i = (w, [], []) := by
  unfold applyIssue
  simp [hn, hi, hch, heq]

theorem applyIssue_missing (w node inputs : PyDict) (i : Issue)
    (hch : i.choices = [])
    (hn : w.get i.node_id = some (.vdict node))
    (hi : node.get "inputs" = some (.vdict inputs)) :
    applyIssue w i =
      (w, [],
        [missingMessage i.node_id i.class_type i.input_name i.received_value
          (model_dir_by_class i.class_type)]) := by
  unfold applyIssue
  simp [hn, hi, hch]

theorem applyIssue_skip (w : PyDict) (i : Issue)
    (hskip : skipIssue w i = true) : applyIssue w i = (w, [], []) := by
  unfold skipIssue at hskip
  unfold applyIssue
  cases hn : w.get i.node_id with
  | none => simp [hn]
  | some v =>
      cases v with
      | vdict node =>
          cases hi : node.get "inputs" with
          | none => simp [hn, hi]
          | some v' =>
              cases v' with
              | vdict inputs => simp [hn, hi] at hskip
              | vstr s => simp [hn, hi]
              | vint n => simp [hn, hi]
              | vbool b => simp [hn, hi]
              | vnone => simp [hn, hi]
              | vlist l => simp [hn, hi]
      | vstr s => simp [hn]
      | vint n => simp [hn]
      | vbool b => simp [hn]
      | vnone => simp [hn]
      | vlist l => simp [hn]

theorem applyIssue_empty_choices (w : PyDict) (i : Issue)
    (hch : i.choices = []) :
    (applyIssue w i).1 = w ∧ (applyIssue w i).2.1 = [] := by
  unfold applyIssue
  cases hn : w.get i.node_id with
  | none => simp [hn]
  | some v =>
      cases v with
      | vdict node =>
          cases hi : node.get "inputs" with
          | none => simp [hn, hi]
          | some v' =>
              cases v' with
              | vdict inputs => simp [hn, hi, hch]
              | vstr s => simp [hn, hi]
              | vint n => simp [hn, hi]
              | vbool b => simp [hn, hi]
              | vnone => simp [hn, hi]
              | vlist l => simp [hn, hi]
      | vstr s => simp [hn]
      | vint n => simp [hn]
      | vbool b => simp [hn]
      | vnone => simp [hn]
      | vlist l => simp [hn]

/-! ## Claim C7 -/

/-- C7: for an issue with non-empty `choices = c0 :: cs` whose node and
inputs mapping exist and whose current value differs from `c0` (an absent
input reads as `None`, which also differs), the Fallback Patcher emits
exactly one patched message and no missing message, sets the input to
`c0`, and a second run with the same issue changes nothing and emits no
message — idempotent once converged. -/
theorem C7_patch_idempotent (payload : PyVal) (i : Issue) (c0 : String)
    (cs : List String) (w node inputs : PyDict)
    (hch : i.choices = c0 :: cs)
    (hw : workflowOf payload = some (.vdict w))
    (hn : w.get i.node_id = some (.vdict node))
    (hi : node.get "inputs" = some (.vdict inputs))
    (hne : pyEqStr ((inputs.get i.input_name).getD .vnone) c0 = false) :
    (apply_validation_fallbacks payload [i]).2.1.length = 1 ∧
    (apply_validation_fallbacks payload [i]).2.2 = [] ∧
    inputValueAt (apply_validation_fallbacks payload [i]).1 i.node_id
      i.input_name = some (.vstr c0) ∧
    apply_validation_fallbacks (apply_validation_fallbacks payload [i]).1 [i] =
      ((apply_validation_fallbacks payload [i]).1, [], []) := by
  have happ := apply_single payload w hw i
  rw [applyIssue_patch w node inputs i c0 cs hch hn hi hne] at happ
  have hwf' :
      workflowOf (setWorkflow payload
          (.vdict (w.set i.node_id (.vdict (node.set "inputs"
            (.vdict (inputs.set i.input_name (.vstr c0)))))))) =
        some (.vdict (w.set i.node_id (.vdict (node.set "inputs"
          (.vdict (inputs.set i.input_name (.vstr c0))))))) :=
    workflowOf_setWorkflow payload _ _ hw
  have hget1 := PyDict.get_set_self w i.node_id
    (.vdict (node.set "inputs" (.vdict (inputs.set i.input_name (.vstr c0)))))
  have hget2 := PyDict.get_set_self node "inputs"
    (.vdict (inputs.set i.input_name (.vstr c0)))
  have hget3 := PyDict.get_set_self inputs i.input_name (.vstr c0)
  refine ⟨by simp [happ], by simp [happ], ?_, ?_⟩
  · simp only [happ]
    unfold inputValueAt
    simp [hwf', hget1, hget2, hget3]
  · simp only [happ]
    have hnoop := applyIssue_noop _ _ _ i c0 cs hch hget1 hget2
      (by simp [hget3, pyEqStr])
    have happ2 := apply_single _ _ hwf' i
    rw [hnoop] at happ2
    simp only [happ2]
    rw [setWorkflow_self _ _ hwf']

theorem C7_patch_idempotent_witness :
    (apply_validation_fallbacks payloadB [issueB]).2.1.length = 1 :=
  (C7_patch_idempotent payloadB issueB "bar.safetensors" ["baz.safetensors"]
    workflowB nodeB inputsB (by decide) (by decide) (by decide) (by decide)
    (by decide)).1

/-! ## Claim C4 -/

/-- C4 (amended): for an issue with empty `choices` the Fallback Patcher
never mutates the payload and emits no patched message; *when the
issue's node exists as a mapping with a mapping-valued `inputs`*, it
emits exactly one missing message naming the node, class, input,
received value and the suggested directory; the directory comes from the
fixed table with `models/<unknown>` for unknown class types.  (The claim's
"always emits exactly one missing message" fails when the node is
absent: the issue is then skipped with no message.) -/
theorem C4_missing_policy (payload : PyVal) (i : Issue) (hch : i.choices = []) :
    (apply_validation_fallbacks payload [i]).1 = payload ∧
    (apply_validation_fallbacks payload [i]).2.1 = [] ∧
    (∀ w node inputs : PyDict,
      workflowOf payload = some (.vdict w) →
      w.get i.node_id = some (.vdict node) →
      node.get "inputs" = some (.vdict inputs) →
      (apply_validation_fallbacks payload [i]).2.2 =
        [missingMessage i.node_id i.class_type i.input_name i.received_value
          (model_dir_by_class i.class_type)]) ∧
    model_dir_by_class "UNETLoader" = "models/unet" ∧
    model_dir_by_class "CLIPLoader" = "models/clip" ∧
    model_dir_by_class "VAELoader" = "models/vae" ∧
    model_dir_by_class "CheckpointLoaderSimple" = "models/checkpoints" ∧
    model_dir_by_class "DualCLIPLoader" = "models/clip" ∧
    (∀ c, c ≠ "UNETLoader" → c ≠ "CLIPLoader" → c ≠ "VAELoader" →
      c ≠ "CheckpointLoaderSimple" → c ≠ "DualCLIPLoader" →
      model_dir_by_class c = "models/<unknown>") := by
  have hmain : (apply_validation_fallbacks payload [i]).1 = payload ∧
      (apply_validation_fallbacks payload [i]).2.1 = [] := by
    cases hw : workflowOf payload with
    | none => unfold apply_validation_fallbacks; simp [hw]
    | some v =>
        cases v with
        | vdict w =>
            have happ := apply_single payload w hw i
            have he := applyIssue_empty_choices w i hch
            constructor
            · rw [happ]
              show setWorkflow payload (.vdict (applyIssue w i).1) = payload
              rw [he.1]
              exact setWorkflow_self payload _ hw
            · rw [happ]
              exact he.2
        | vstr s => unfold apply_validation_fallbacks; simp [hw]
        | vint n => unfold apply_validation_fallbacks; simp [hw]
        | vbool b => unfold apply_validation_fallbacks; simp [hw]
        | vnone => unfold apply_validation_fallbacks; simp [hw]
        | vlist l => unfold apply_validation_fallbacks; simp [hw]
  refine ⟨hmain.1, hmain.2, ?_, rfl, rfl, rfl, rfl, rfl, ?_⟩
  · intro w node inputs hw hn hi
    have happ := apply_single payload w hw i
    rw [applyIssue_missing w node inputs i hch hn hi] at happ
    rw [happ]
  · intro c h1 h2 h3 h4 h5
    unfold model_dir_by_class
    rw [if_neg h1, if_neg h2, if_neg h3, if_neg h4, if_neg h5]

theorem C4_missing_policy_witness :
    (apply_validation_fallbacks payloadB [issueC]).2.2 =
      [missingMessage issueC.node_id issueC.class_type issueC.input_name
        issueC.received_value (model_dir_by_class issueC.class_type)] :=
  (C4_missing_policy payloadB issueC rfl).2.2.1 workflowB nodeB inputsB
    (by decide) (by decide) (by decide)

/-- C4 counterexample: `issueC` has empty choices, but against a payload
whose workflow lacks node 12 the patcher emits *zero* missing messages
(it skips the issue silently), refuting "always emits exactly one missing
message for that issue". -/
theorem C4_missing_policy_counterexample :
    issueC.choices = [] ∧
    apply_validation_fallbacks payloadEmptyW [issueC] =
      (payloadEmptyW, [], []) :=
  ⟨rfl, by decide⟩

/-! ## Claim C5 -/

/-- C5 (amended): an issue is skipped silently — no mutation, no patched
or missing message — when the referenced *node* is absent or not a
mapping, or its `inputs` is absent or not a mapping.  (The claim's
"node/input pair does not exist" is too strong: when the node and its
inputs mapping exist but the input name itself is absent, the issue is
*not* skipped — see the counterexample.) -/
theorem C5_skip_silent (payload : PyVal) (w : PyDict) (i : Issue)
    (hw : workflowOf payload = some (.vdict w))
    (hskip : skipIssue w i = true) :
    apply_validation_fallbacks payload [i] = (payload, [], []) := by
  have happ := apply_single payload w hw i
  rw [applyIssue_skip w i hskip] at happ
  rw [happ, setWorkflow_self payload _ hw]

theorem C5_skip_silent_witness :
    apply_validation_fallbacks payloadB [issueNoNode] = (payloadB, [], []) :=
  C5_skip_silent payloadB workflowB issueNoNode (by decide) (by decide)

/-- C5 counterexample: `issueC5` references node "1" input "x"; the pair
does not exist in `payloadC5` (node 1's inputs mapping is empty), yet the
patcher mutates the payload (adding the key) and emits a patched
message instead of skipping silently. -/
theorem C5_skip_silent_counterexample :
    inputValueAt payloadC5 "1" "x" = none ∧
    (apply_validation_fallbacks payloadC5 [issueC5]).2.1 =
      ["Node 1 (Unknown) x: None -> \x27a\x27"] ∧
    inputValueAt (apply_validation_fallbacks payloadC5 [issueC5]).1 "1" "x" =
      some (.vstr "a") :=
  ⟨rfl, by decide, by decide⟩

/-! ## Claim C2 -/

/-- C2: any input string not containing the literal marker
`"Workflow validation failed"` — the empty string and arbitrary
unrelated text included — makes the parser return the empty issue list
(and, being a total function here as in Python, it raises nothing). -/
theorem C2_no_marker_empty (s : String)
    (h : containsSub s.data validationMarker = false) :
    parse_validation_issues (.vstr s) = [] := by
  unfold parse_validation_issues
  simp [h]

theorem C2_no_marker_empty_witness :
    containsSub "status: IN_QUEUE, nothing to see".data validationMarker = false ∧
    parse_validation_issues (.vstr "status: IN_QUEUE, nothing to see") = [] :=
  ⟨by decide, C2_no_marker_empty _ (by decide)⟩

/-! ## Claim C1 -/

set_option maxRecDepth 1000000 in
/-- C1 (amended): scenario B's error text parses to exactly one issue —
node "12", class `CheckpointLoaderSimple`, input `ckpt_name`, choices
`["bar.safetensors", "baz.safetensors"]` — and applying the Fallback
Patcher with that issue to a payload whose workflow contains node "12"
with an inputs mapping *whose current `ckpt_name` value differs from*
`"bar.safetensors"` sets that input to `"bar.safetensors"` and returns
exactly one patched and zero missing messages.  (The italicised
condition is the amendment: an already-converged value yields zero
patched messages — see the counterexample.) -/
theorem C1_scenarioB (payload : PyVal) (w node inputs : PyDict)
    (hw : workflowOf payload = some (.vdict w))
    (hn : w.get "12" = some (.vdict node))
    (hi : node.get "inputs" = some (.vdict inputs))
    (hne : pyEqStr ((inputs.get "ckpt_name").getD .vnone) "bar.safetensors"
      = false) :
    parse_validation_issues (.vstr errTextB) = [issueB] ∧
    (apply_validation_fallbacks payload [issueB]).2.1.length = 1 ∧
    (apply_validation_fallbacks payload [issueB]).2.2 = [] ∧
    inputValueAt (apply_validation_fallbacks payload [issueB]).1 "12"
      "ckpt_name" = some (.vstr "bar.safetensors") := by
  have happ := apply_single payload w hw issueB
  rw [applyIssue_patch w node inputs issueB "bar.safetensors"
    ["baz.safetensors"] rfl hn hi hne] at happ
  simp only [issueB] at happ
  have hwf' :
      workflowOf (setWorkflow payload
          (.vdict (w.set "12" (.vdict (node.set "inputs"
            (.vdict (inputs.set "ckpt_name" (.vstr "bar.safetensors")))))))) =
        some (.vdict (w.set "12" (.vdict (node.set "inputs"
          (.vdict (inputs.set "ckpt_name" (.vstr "bar.safetensors"))))))) :=
    workflowOf_setWorkflow payload _ _ hw
  have hget1 := PyDict.get_set_self w "12"
    (.vdict (node.set "inputs"
      (.vdict (inputs.set "ckpt_name" (.vstr "bar.safetensors")))))
  have hget2 := PyDict.get_set_self node "inputs"
    (.vdict (inputs.set "ckpt_name" (.vstr "bar.safetensors")))
  have hget3 := PyDict.get_set_self inputs "ckpt_name"
    (.vstr "bar.safetensors")
  refine ⟨rfl, ?_, ?_, ?_⟩
  · simp only [issueB]
    simp [happ]
  · simp only [issueB]
    simp [happ]
  · simp only [issueB]
    simp only [happ]
    unfold inputValueAt
    simp [hwf', hget1, hget2, hget3]

set_option maxRecDepth 1000000 in
theorem C1_scenarioB_witness :
    inputValueAt (apply_validation_fallbacks payloadB [issueB]).1 "12"
      "ckpt_name" = some (.vstr "bar.safetensors") :=
  (C1_scenarioB payloadB workflowB nodeB inputsB (by decide) (by decide)
    (by decide) (by decide)).2.2.2

set_option maxRecDepth 1000000 in
/-- C1 counterexample: the same parsed issue applied to a payload whose
node 12 has an inputs mapping with `ckpt_name` already equal to
`"bar.safetensors"` yields *zero* patched messages, not exactly one. -/
theorem C1_scenarioB_counterexample :
    parse_validation_issues (.vstr errTextB) = [issueB] ∧
    apply_validation_fallbacks payloadBConv [issueB] =
      (payloadBConv, [], []) :=
  ⟨rfl, by decide⟩

/-! ## Claim C3 -/

/-- C3: the job is re-run exactly once more — with the mutated payload —
if and only if the first terminal status is not `COMPLETED`, the parsed
issue list is non-empty, and the Fallback Patcher applied at least one
patch; and in every execution at most two submissions happen (never a
second retry). -/
theorem C3_single_retry (payload r1 : PyVal) (run2 : PyVal → Option PyVal) :
    (mainRecovery payload r1 run2).submissions ≤ 2 ∧
    ((mainRecovery payload r1 run2).submissions = 2 ↔
      (statusOf r1 ≠ "COMPLETED" ∧
        parse_validation_issues (errorTextOf r1) ≠ [] ∧
        (apply_validation_fallbacks payload
          (parse_validation_issues (errorTextOf r1))).2.1 ≠ [])) ∧
    ((mainRecovery payload r1 run2).submissions = 2 →
      (mainRecovery payload r1 run2).retryArg =
        some (apply_validation_fallbacks payload
          (parse_validation_issues (errorTextOf r1))).1) := by
  unfold mainRecovery
  by_cases h1 : statusOf r1 = "COMPLETED"
  · simp [h1]
  · rw [if_neg h1]
    by_cases h2 : parse_validation_issues (errorTextOf r1) = []
    · simp [h1, h2]
    · have h2' : (parse_validation_issues (errorTextOf r1)).isEmpty = false := by
        simp [List.isEmpty_iff, h2]
      by_cases h3 : (apply_validation_fallbacks payload
          (parse_validation_issues (errorTextOf r1))).2.1 = []
      · simp [h1, h2, h2', h3]
      · have h3' : ((apply_validation_fallbacks payload
            (parse_validation_issues (errorTextOf r1))).2.1).isEmpty = false := by
          simp [List.isEmpty_iff, h3]
        cases hr : run2 (apply_validation_fallbacks payload
            (parse_validation_issues (errorTextOf r1))).1 with
        | none => simp [h1, h2, h2', h3, h3', hr]
        | some r2 => simp [h1, h2, h2', h3, h3', hr]

set_option maxRecDepth 1000000 in
theorem C3_single_retry_witness :
    (mainRecovery payloadB resultFailB (fun _ => some resultDone)).submissions
      = 2 :=
  (C3_single_retry payloadB resultFailB (fun _ => some resultDone)).2.1.mpr
    ⟨by decide, by decide, by decide⟩

/-! ## Claim C9 -/

/-- C9 (amended): whenever every Job Runner invocation returns a result
normally (no exception), the final `JobResult` is the one persisted to
`result.json` before the program terminates, regardless of its status.
(The unrestricted claim fails: an exception in the *retry* submission
propagates out of `main` before the `result.json` write, although a
result was obtained — see the counterexample.) -/
theorem C9_result_persisted (payload r1 : PyVal) (run2 : PyVal → Option PyVal)
    (hrun : ∀ p, run2 p ≠ none) :
    (mainRecovery payload r1 run2).persisted =
      (mainRecovery payload r1 run2).results.getLast? ∧
    (mainRecovery payload r1 run2).persisted ≠ none := by
  unfold mainRecovery
  by_cases h1 : statusOf r1 = "COMPLETED"
  · simp [h1]
  · rw [if_neg h1]
    by_cases h2 : (parse_validation_issues (errorTextOf r1)).isEmpty
    · simp [h2]
    · simp only [h2, Bool.false_eq_true, if_false]
      by_cases h3 : ((apply_validation_fallbacks payload
          (parse_validation_issues (errorTextOf r1))).2.1).isEmpty
      · simp [h3]
      · cases hr : run2 (apply_validation_fallbacks payload
            (parse_validation_issues (errorTextOf r1))).1 with
        | none => exact absurd hr (hrun _)
        | some r2 => simp [h3, hr]

theorem C9_result_persisted_witness :
    (mainRecovery (.vdict .dnil) resultDone (fun _ => some resultDone)).persisted
      = (mainRecovery (.vdict .dnil) resultDone
          (fun _ => some resultDone)).results.getLast? :=
  (C9_result_persisted (.vdict .dnil) resultDone (fun _ => some resultDone)
    (fun _ h => Option.noConfusion h)).1

set_option maxRecDepth 1000000 in
/-- C9 counterexample: the first run obtained `resultFailB`, the retry is
taken and raises (`run2` returns `none`), and the program terminates
with *no* `result.json` write although a `JobResult` had been
obtained. -/
theorem C9_result_persisted_counterexample :
    (mainRecovery payloadB resultFailB (fun _ => none)).results =
      [resultFailB] ∧
    (mainRecovery payloadB resultFailB (fun _ => none)).persisted = none :=
  ⟨by decide, by decide⟩

/-! ## Claim C6 -/

theorem sweep_cons_node (k : String) (v : PyVal) (rest : PyDict)
    (h : isNodeRecord v = true) :
    sweep (.dcons k v rest) = (.dcons k v (sweep rest).1, (sweep rest).2) := by
  simp [sweep, h]

theorem sweep_cons_removable (k : String) (v : PyVal) (rest : PyDict)
    (h : isNodeRecord v = false) (h2 : removableKey k = true) :
    sweep (.dcons k v rest) = ((sweep rest).1, k :: (sweep rest).2) := by
  simp [sweep, h, h2]

theorem sweep_cons_keep (k : String) (v : PyVal) (rest : PyDict)
    (h : isNodeRecord v = false) (h2 : removableKey k = false) :
    sweep (.dcons k v rest) = (.dcons k v (sweep rest).1, (sweep rest).2) := by
  simp [sweep, h, h2]

/-- After the sweep, any surviving entry under a removable key name is a
node record (everything else under such a key was popped). -/
theorem sweep_removable_node (d : PyDict) :
    ∀ kv ∈ (sweep d).1.toList, removableKey kv.1 = true →
      isNodeRecord kv.2 = true :=
  match d with
  | .dnil => by intro kv h; simp [sweep, PyDict.toList] at h
  | .dcons k v rest => by
      intro kv hmem hrm
      by_cases hnode : isNodeRecord v
      · rw [sweep_cons_node k v rest hnode] at hmem
        rw [PyDict.toList] at hmem
        rcases List.mem_cons.mp hmem with hkv | hkv
        · subst hkv; exact hnode
        · exact sweep_removable_node rest kv hkv hrm
      · have hnode' : isNodeRecord v = false := by
          revert hnode; cases isNodeRecord v <;> simp
        by_cases hk : removableKey k
        · rw [sweep_cons_removable k v rest hnode' hk] at hmem
          exact sweep_removable_node rest kv hmem hrm
        · have hk' : removableKey k = false := by
            revert hk; cases removableKey k <;> simp
          rw [sweep_cons_keep k v rest hnode' hk'] at hmem
          rw [PyDict.toList] at hmem
          rcases List.mem_cons.mp hmem with hkv | hkv
          · subst hkv; rw [hrm] at hk'; cases hk'
          · exact sweep_removable_node rest kv hkv hrm

/-- C6 (amended): when the sanitizer returns without error on a payload
whose `input.workflow` is a mapping, the resulting workflow is non-empty
and every surviving entry whose key starts with `#` or is exactly
`config`/`definitions` is a node record.  (The claim's "every remaining
top-level entry is a node record" fails: entries under other key names
are kept whatever their shape — see the counterexample.) -/
theorem C6_sanitize_invariant (payload : PyVal) (w : PyDict)
    (rm : List String) (p' : PyVal)
    (hw : workflowOf payload = some (.vdict w))
    (hok : sanitize_workflow payload = .ok (rm, p')) :
    ∃ w', workflowOf p' = some (.vdict w') ∧ w'.isEmpty = false ∧
      ∀ kv ∈ w'.toList, removableKey kv.1 = true →
        isNodeRecord kv.2 = true := by
  have hs : sanitize_workflow payload =
      (match w.get "nodes", w.get "links" with
       | some (.vlist _), some (.vlist _) =>
          .error ("Detected frontend workflow JSON (contains nodes/links). "
            ++ "This worker expects API prompt JSON. "
            ++ "Please export `workflow_api.json` (or Save as API format) "
            ++ "from ComfyUI and use that file.")
       | _, _ =>
          if (sweep w).1.isEmpty then
            .error ("Workflow has no executable nodes after sanitization. "
              ++ "Please provide an API prompt JSON export from ComfyUI.")
          else .ok ((sweep w).2, setWorkflow payload (.vdict (sweep w).1))) := by
    unfold sanitize_workflow
    rw [hw]
  rw [hs] at hok
  clear hs
  split at hok
  · cases hok
  · by_cases hne : (sweep w).1.isEmpty
    · rw [if_pos hne] at hok
      cases hok
    · rw [if_neg hne] at hok
      have hne' : (sweep w).1.isEmpty = false := by
        revert hne; cases (sweep w).1.isEmpty <;> simp
      simp only [Except.ok.injEq, Prod.mk.injEq] at hok
      refine ⟨(sweep w).1, ?_, hne', sweep_removable_node w⟩
      rw [← hok.2]
      exact workflowOf_setWorkflow payload _ _ hw

theorem C6_sanitize_invariant_witness :
    ∃ w', workflowOf payloadB = some (.vdict w') ∧ w'.isEmpty = false ∧
      ∀ kv ∈ w'.toList, removableKey kv.1 = true →
        isNodeRecord kv.2 = true :=
  C6_sanitize_invariant payloadB workflowB [] payloadB (by decide) (by rfl)

/-- C6 counterexample: a workflow holding the single entry
`"foo" : 1` — not a node record — passes sanitization untouched and
without error, refuting "every remaining top-level entry is a node
record". -/
theorem C6_sanitize_invariant_counterexample :
    sanitize_workflow payloadJunk = .ok ([], payloadJunk) ∧
    workflowOf payloadJunk = some (.vdict (.dcons "foo" (.vint 1) .dnil)) ∧
    isNodeRecord (.vint 1) = false :=
  ⟨by rfl, by decide, rfl⟩

/-! ## Claim C8 -/

theorem backoff_nonneg (n : Nat) : 0 ≤ backoff n := by
  induction n with
  | zero => norm_num [backoff]
  | succ n ih =>
      rw [backoff]
      exact le_min (by nlinarith) (by norm_num)

theorem backoff_le_ten (n : Nat) : backoff n ≤ 10 := by
  cases n with
  | zero => norm_num [backoff]
  | succ n => rw [backoff]; exact min_le_right _ _

/-- Since `2 * 1.2 ^ 9 = 10.3196…` exceeds the cap, step 9 is clamped to 10. -/
theorem backoff_nine : backoff 9 = 10 := by
  have e : ∀ n : Nat, backoff (n + 1) = min (backoff n * (6 / 5)) 10 :=
    fun n => rfl
  have h0 : backoff 0 = 2 := rfl
  have h1 : backoff 1 = 12 / 5 := by
    rw [e 0, h0, min_eq_left (by norm_num)]; norm_num
  have h2 : backoff 2 = 72 / 25 := by
    rw [e 1, h1, min_eq_left (by norm_num)]; norm_num
  have h3 : backoff 3 = 432 / 125 := by
    rw [e 2, h2, min_eq_left (by norm_num)]; norm_num
  have h4 : backoff 4 = 2592 / 625 := by
    rw [e 3, h3, min_eq_left (by norm_num)]; norm_num
  have h5 : backoff 5 = 15552 / 3125 := by
    rw [e 4, h4, min_eq_left (by norm_num)]; norm_num
  have h6 : backoff 6 = 93312 / 15625 := by
    rw [e 5, h5, min_eq_left (by norm_num)]; norm_num
  have h7 : backoff 7 = 559872 / 78125 := by
    rw [e 6, h6, min_eq_left (by norm_num)]; norm_num
  have h8 : backoff 8 = 3359232 / 390625 := by
    rw [e 7, h7, min_eq_left (by norm_num)]; norm_num
  rw [e 8, h8, min_eq_right (by norm_num)]

/-- C8: the polling sleep schedule starts at 2.0 s, follows
`min(previous * 1.2, 10.0)`, is monotonically non-decreasing, and hits
the 10.0 s cap at step 9 and stays there from then on (so certainly by
step 10).  Embedded in exact rationals; all comparisons are far from the
cap boundary, so IEEE-754 float rounding cannot change them. -/
theorem C8_backoff_schedule :
    backoff 0 = 2 ∧
    (∀ n, backoff (n + 1) = min (backoff n * (6 / 5)) 10) ∧
    (∀ n, backoff n ≤ backoff (n + 1)) ∧
    backoff 9 = 10 ∧
    (∀ n, 9 ≤ n → backoff n = 10) := by
  have h9 : backoff 9 = 10 := backoff_nine
  refine ⟨rfl, fun n => rfl, fun n => ?_, h9, ?_⟩
  · have h0 := backoff_nonneg n
    have h10 := backoff_le_ten n
    rw [show backoff (n + 1) = min (backoff n * (6 / 5)) 10 from rfl]
    refine le_min ?_ h10
    nlinarith
  · intro n hn
    induction n, hn using Nat.le_induction with
    | base => exact h9
    | succ n hn ih =>
        rw [show backoff (n + 1) = min (backoff n * (6 / 5)) 10 from rfl, ih,
          min_eq_right (by norm_num)]

theorem C8_backoff_schedule_witness : backoff 12 = 10 :=
  C8_backoff_schedule.2.2.2.2 12 (by norm_num)

/-! ## Claim C10 -/

theorem pollLoop_timeout_origin (res : Nat → PyVal) (over : Nat → Bool) :
    ∀ (fuel i : Nat) (s : ℚ) (st : String),
      pollLoop res over fuel i s = .timeout st →
      ∃ j, isTerminalStatus (statusOf (res j)) = false ∧ over j = true ∧
        st = statusOf (res j) := by
  intro fuel
  induction fuel with
  | zero => intro i s st h; simp [pollLoop] at h
  | succ f ih =>
      intro i s st h
      simp only [pollLoop] at h
      by_cases ht : isTerminalStatus (statusOf (res i)) = true
      · rw [if_pos ht] at h
        cases h
      · rw [if_neg ht] at h
        have ht' : isTerminalStatus (statusOf (res i)) = false := by
          revert ht; cases isTerminalStatus (statusOf (res i)) <;> simp
        by_cases hov : over i = true
        · rw [if_pos hov] at h
          have hst : statusOf (res i) = st := by
            cases h; rfl
          exact ⟨i, ht', hov, hst.symm⟩
        · rw [if_neg hov] at h
          exact ih (i + 1) _ st h

/-- C10: each polling iteration checks for a terminal status
(`COMPLETED`/`FAILED`/`CANCELLED`/`TIMED_OUT` after upper-casing) before
checking the deadline, so a terminal result is returned even when the
maximum wait is already exceeded; and a `Timeout` error only arises from
an iteration that observed a non-terminal status past the deadline, and
carries exactly that observed status. -/
theorem C10_terminal_checked_first (res : Nat → PyVal) (over : Nat → Bool)
    (fuel i : Nat) (s : ℚ) :
    (fuel ≠ 0 → isTerminalStatus (statusOf (res i)) = true →
      pollLoop res over fuel i s = .done (res i)) ∧
    (∀ st, pollLoop res over fuel i s = .timeout st →
      ∃ j, isTerminalStatus (statusOf (res j)) = false ∧ over j = true ∧
        st = statusOf (res j)) := by
  constructor
  · intro hf ht
    match fuel with
    | 0 => exact absurd rfl hf
    | f + 1 => simp [pollLoop, ht]
  · intro st h
    exact pollLoop_timeout_origin res over fuel i s st h

theorem C10_terminal_checked_first_witness :
    pollLoop (fun _ => resultDone) (fun _ => true) 1 0 2 = .done resultDone :=
  (C10_terminal_checked_first (fun _ => resultDone) (fun _ => true) 1 0 2).1
    (by decide) (by decide)

end ComfyTool
